import Mathlib

/-!
# Verification of the fauna-detector annotation renderer

Shallow embedding of `src/animal-detector/backend/main.py`, the backend of
the fauna detector: the label layout arithmetic of
`annotate_image_for_download` (name / date / coordinates label placement per
bounding box), the per-box draw operations, the persisted
`AnnotationEntry` records, and the data-URI decode / PNG re-encode shell.

Pixel coordinates are modelled as rationals (the source stores them as
Python floats and only adds, subtracts and compares them).  The external
image codec (base64 + PIL raster decode/encode) and the text-metrics
provider (`draw.textbbox`) are parameters, as the spec treats them as
external collaborators.
-/

namespace FaunaDetector

/-- A bounding box as sent in the request (`class Box(BaseModel)`,
`main.py` lines 67-73). -/
structure Box where
  x1 : ℚ
  y1 : ℚ
  x2 : ℚ
  y2 : ℚ
  name : String
  date : String
deriving DecidableEq, Repr

/-- The request payload (`class Annotation(BaseModel)`, lines 75-79):
an encoded image, a list of boxes, and optional request-scoped
latitude/longitude. -/
structure Annotation where
  image : String
  boxes : List Box
  latitude : Option ℚ
  longitude : Option ℚ
deriving Repr

/-- Result of `draw.textbbox((0,0), text, font)` reduced to a size:
`width = bbox[2] - bbox[0]`, `height = bbox[3] - bbox[1]`
(lines 110-112, 131-133, 146-148).  The metrics provider is external;
layout code only ever uses these two numbers. -/
structure TextSize where
  width : ℚ
  height : ℚ
deriving DecidableEq, Repr

/-- An axis-aligned rectangle `[x0, y0, x1, y1]` as passed to
`draw.rectangle`. -/
structure Plate where
  x0 : ℚ
  y0 : ℚ
  x1 : ℚ
  y1 : ℚ
deriving DecidableEq, Repr

/-- Width of a plate rectangle. -/
def Plate.width (p : Plate) : ℚ := p.x1 - p.x0

/-- Height of a plate rectangle. -/
def Plate.height (p : Plate) : ℚ := p.y1 - p.y0

/-- Two rectangles overlap when their interiors intersect (positive-area
intersection; touching edges do not count). -/
def Plate.overlaps (a b : Plate) : Prop :=
  a.x0 < b.x1 ∧ b.x0 < a.x1 ∧ a.y0 < b.y1 ∧ b.y0 < a.y1

instance (a b : Plate) : Decidable (a.overlaps b) := by
  unfold Plate.overlaps; infer_instance

/-- One placed label: its background plate, the position the text is drawn
at, and the text itself (the `draw.rectangle` + `draw.text` pair the source
emits for each label). -/
structure Placed where
  plate : Plate
  textX : ℚ
  textY : ℚ
  text : String
deriving DecidableEq, Repr

/-! ## Name label layout (lines 108-121) -/

/-- Measured height of the box's name text. -/
def nameTextH (measure : String → TextSize) (box : Box) : ℚ :=
  (measure box.name).height

/-- Measured width of the box's name text. -/
def nameTextW (measure : String → TextSize) (box : Box) : ℚ :=
  (measure box.name).width

/-- The value `name_y` after the boundary fallback (lines 115-117):
`name_y = box.y1 - name_text_height - 5`, and if that is negative the
label is relocated inside the box at `box.y1 + 5`. -/
def nameLabelY (measure : String → TextSize) (box : Box) : ℚ :=
  let y := box.y1 - nameTextH measure box - 5
  if y < 0 then box.y1 + 5 else y

/-- The boundary fallback fired: the computed `name_y` was negative
(line 116). -/
def nameRelocated (measure : String → TextSize) (box : Box) : Prop :=
  box.y1 - nameTextH measure box - 5 < 0

instance (measure : String → TextSize) (box : Box) :
    Decidable (nameRelocated measure box) := by
  unfold nameRelocated; infer_instance

/-- The name label's plate and text (lines 114-121): plate
`[name_x, name_y, name_x + w + 5, name_y + h + 5]`, text at
`(name_x + 2, name_y + 2)`. -/
def namePlacement (measure : String → TextSize) (box : Box) : Placed :=
  let w := nameTextW measure box
  let h := nameTextH measure box
  let x := box.x1
  let y := nameLabelY measure box
  { plate := ⟨x, y, x + w + 5, y + h + 5⟩
    textX := x + 2
    textY := y + 2
    text := box.name }

/-! ## Date label layout (lines 124-140) -/

/-- The rendered date string (line 130). -/
def dateText (box : Box) : String := "Fecha: " ++ box.date

/-- The offset `date_text_y_offset` (lines 125-127): `name_text_height + 5` when
`name_y == box.y1 + 5` (the name label sits inside the box), else `0`. -/
def dateTextYOffset (measure : String → TextSize) (box : Box) : ℚ :=
  if nameLabelY measure box = box.y1 + 5 then nameTextH measure box + 5 else 0

/-- The value `date_y = name_y + date_text_y_offset` (line 136). -/
def dateLabelY (measure : String → TextSize) (box : Box) : ℚ :=
  nameLabelY measure box + dateTextYOffset measure box

/-- The date label's plate and text, present iff `box.date` is non-empty
(Python truthiness of `if box.date:`, line 129).  Plate
`[date_x, date_y, date_x + w + 5, date_y + h + 5]` with
`date_x = box.x2 - w - 5`, text at `(date_x + 2, date_y + 2)`
(lines 135-140). -/
def datePlacement (measure : String → TextSize) (box : Box) : Option Placed :=
  if box.date = "" then none
  else
    let t := dateText box
    let w := (measure t).width
    let h := (measure t).height
    let x := box.x2 - w - 5
    let y := dateLabelY measure box
    some { plate := ⟨x, y, x + w + 5, y + h + 5⟩
           textX := x + 2
           textY := y + 2
           text := t }

/-! ## Coordinates label layout (lines 143-155) -/

/-- The rendered coordinates string (line 145).  The source formats the
floats with `:.4f`; the exact digits are irrelevant to layout (only the
measured size of the string is used), so the string is built with the
rationals' own rendering. -/
def coordsText (lat lon : ℚ) : String :=
  "Lat: " ++ toString lat ++ ", Lon: " ++ toString lon

/-- The coordinates label's plate and text, present iff both latitude and
longitude are supplied (line 144).  `coords_x = box.x2 - w - 5`,
`coords_y = box.y1 + 5` — unconditionally (lines 150-151); plate
`[coords_x, coords_y, coords_x + w + 5, coords_y + h + 5]`, text at
`(coords_x + 2, coords_y + 2)` (lines 154-155). -/
def coordsPlacement (measure : String → TextSize) (lat lon : Option ℚ)
    (box : Box) : Option Placed :=
  match lat, lon with
  | some la, some lo =>
    let t := coordsText la lo
    let w := (measure t).width
    let h := (measure t).height
    let x := box.x2 - w - 5
    let y := box.y1 + 5
    some { plate := ⟨x, y, x + w + 5, y + h + 5⟩
           textX := x + 2
           textY := y + 2
           text := t }
  | _, _ => none

/-! ## Per-box draw operations (lines 104-155) -/

/-- One drawing primitive issued against the raster: a 2 px outline
rectangle (`draw.rectangle(..., outline=box_color, width=2)`), a filled
background plate (`draw.rectangle(..., fill=bg_color)`), or text
(`draw.text(...)`). -/
inductive DrawOp where
  | outline (r : Plate)
  | fillRect (r : Plate)
  | text (x y : ℚ) (s : String)
deriving DecidableEq, Repr

/-- The two draw calls a placed label produces: its background plate then
its text. -/
def Placed.ops (p : Placed) : List DrawOp :=
  [DrawOp.fillRect p.plate, DrawOp.text p.textX p.textY p.text]

/-- All draw operations for one box, in source order: box outline
(line 106), name plate + text (lines 120-121), date plate + text when the
date is non-empty (lines 129-140), coordinates plate + text when both
latitude and longitude are present (lines 144-155). -/
def boxOps (measure : String → TextSize) (lat lon : Option ℚ) (box : Box) :
    List DrawOp :=
  DrawOp.outline ⟨box.x1, box.y1, box.x2, box.y2⟩ ::
    (namePlacement measure box).ops ++
      ((datePlacement measure box).elim [] Placed.ops ++
        (coordsPlacement measure lat lon box).elim [] Placed.ops)

/-- Draw operations of the whole request: boxes processed in input order
(line 104). -/
def renderOps (measure : String → TextSize) (lat lon : Option ℚ)
    (boxes : List Box) : List DrawOp :=
  boxes.flatMap (boxOps measure lat lon)

/-! ## Persistence (lines 42-50, 157-167) -/

/-- A persisted row of `annotation_entries` (`class AnnotationEntry`,
lines 42-50): image reference, box name and date, the request-scoped
latitude/longitude, and a creation timestamp.  The box geometry
(`x1,y1,x2,y2`) has no column.  The timestamp is abstracted as a natural
number supplied by the caller (`default=datetime.datetime.now`). -/
structure AnnotationEntry where
  image_id : String
  box_name : String
  box_date : String
  annotation_latitude : Option ℚ
  annotation_longitude : Option ℚ
  created_at : ℕ
deriving DecidableEq, Repr

/-- The record added for one box (lines 158-165): the shared
`image_id_gen`, the box's name and date, and the request's
latitude/longitude. -/
def entryForBox (imageIdGen : String) (now : ℕ) (lat lon : Option ℚ)
    (box : Box) : AnnotationEntry :=
  { image_id := imageIdGen
    box_name := box.name
    box_date := box.date
    annotation_latitude := lat
    annotation_longitude := lon
    created_at := now }

/-! ## The request handler (lines 82-175) -/

/-- The external image codec and raster model: decoding the base64
payload into a raster (`base64.b64decode` + `Image.open(...).convert("RGB")`,
`none` on failure), applying one draw primitive to a raster, and
re-encoding a raster as base64 PNG bytes (`image.save(..., format="PNG")`
+ `base64.b64encode`). -/
structure Codec (Image : Type) where
  decodePayload : String → Option Image
  applyOp : Image → DrawOp → Image
  encodePNG : Image → String

/-- Split a character list at its first comma: everything before it and
everything after it, or `none` when there is no comma. -/
def splitAtComma : List Char → Option (List Char × List Char)
  | [] => none
  | c :: cs =>
    if c = ',' then some ([], cs)
    else (splitAtComma cs).map fun p => (c :: p.1, p.2)

/-- The call `annotation.image.split(",", 1)` followed by two-element unpacking
(line 85): splits at the first comma, failing (Python `ValueError`) when
the string has no comma. -/
def splitDataURI (s : String) : Option (String × String) :=
  (splitAtComma s.data).map fun p => (String.mk p.1, String.mk p.2)

/-- Decode the data-URI image (lines 85-88): split off the comma-delimited
payload, then decode it with the external codec. -/
def decodeImage {Image : Type} (codec : Codec Image) (s : String) :
    Option Image :=
  match splitDataURI s with
  | none => none
  | some (_, payload) => codec.decodePayload payload

/-- The request aborts with a decode error (the exception escaping
lines 85-88). -/
inductive AnnotateError where
  | decodeError
deriving DecidableEq, Repr

/-- The JSON response (line 175). -/
structure Response where
  annotated_image : String
  message : String
deriving DecidableEq, Repr

/-- The handler `annotate_image_for_download` (lines 82-175): decode the image, draw
every box's outline and labels, persist one record per box, re-encode the
raster as PNG and wrap it in a data-URI.  On success it yields the
response, the committed records and the final raster; a decode failure
aborts before anything is drawn or persisted.  `imageIdGen` is the
`image_id_gen` string computed once before the loop (line 100) and `now`
the insert timestamp. -/
def annotate {Image : Type} (codec : Codec Image)
    (measure : String → TextSize) (imageIdGen : String) (now : ℕ)
    (ann : Annotation) :
    Except AnnotateError (Response × List AnnotationEntry × Image) :=
  match decodeImage codec ann.image with
  | none => .error .decodeError
  | some img =>
    let finalImg :=
      (renderOps measure ann.latitude ann.longitude ann.boxes).foldl
        codec.applyOp img
    let entries :=
      ann.boxes.map (entryForBox imageIdGen now ann.latitude ann.longitude)
    let encoded := codec.encodePNG finalImg
    .ok ({ annotated_image := "data:image/png;base64," ++ encoded
           message := "Annotation saved to DB and image processed." },
         entries, finalImg)

/-- The records the request leaves in the store: none when it aborts,
the committed batch on success (`db.add` per box, single `db.commit`,
lines 165-167). -/
def persistedRecords {Image : Type}
    (r : Except AnnotateError (Response × List AnnotationEntry × Image)) :
    List AnnotationEntry :=
  match r with
  | .error _ => []
  | .ok (_, entries, _) => entries

/-! ## Concrete fixtures for witnesses and counterexamples -/

/-- A constant metrics provider: every string measures 50 × 10 px
(PIL's default font is a black box; only the returned size matters). -/
def cMeasure : String → TextSize := fun _ => ⟨50, 10⟩

/-- A box whose top edge is so close to the image top that the name label
is relocated inside it (`y1 = 0 < 10 + 5`). -/
def cBoxLow : Box := ⟨0, 0, 60, 100, "a", "2024-01-01"⟩

/-- A box far enough from the image top that the name label stays above it
(`y1 = 40 ≥ 10 + 5`). -/
def cBoxHigh : Box := ⟨50, 40, 150, 120, "fox", "2024-01-01"⟩

/-- A concrete codec over `ℕ` rasters: a raster is its running op count
seeded by the payload length, so every draw operation is observable. -/
def cCodec : Codec ℕ :=
  { decodePayload := fun s => if s = "BAD" then none else some s.length
    applyOp := fun i _ => i + 1
    encodePNG := fun i => toString i }

/-- A concrete request with two boxes and both coordinates. -/
def cAnn : Annotation :=
  ⟨"data:image/png;base64,AAAA", [cBoxLow, cBoxHigh], some 1, some 2⟩

/-- A concrete request with no boxes. -/
def cAnnEmpty : Annotation :=
  ⟨"data:image/png;base64,AAAA", [], some 1, some 2⟩

/-- A concrete request whose image string has no comma, so the data-URI
split fails. -/
def cAnnBad : Annotation := ⟨"not-a-data-uri", [cBoxLow], some 1, some 2⟩

/-! ## Unfolding lemmas for the placements -/

/-- The name plate's left edge is `box.x1` (line 114). -/
theorem namePlate_x0 (measure : String → TextSize) (box : Box) :
    (namePlacement measure box).plate.x0 = box.x1 := rfl

/-- The name plate's top edge is the fallback-adjusted `name_y`. -/
theorem namePlate_y0 (measure : String → TextSize) (box : Box) :
    (namePlacement measure box).plate.y0 = nameLabelY measure box := rfl

/-- The name plate's right edge (line 120). -/
theorem namePlate_x1 (measure : String → TextSize) (box : Box) :
    (namePlacement measure box).plate.x1
      = box.x1 + nameTextW measure box + 5 := rfl

/-- The name plate's bottom edge (line 120). -/
theorem namePlate_y1 (measure : String → TextSize) (box : Box) :
    (namePlacement measure box).plate.y1
      = nameLabelY measure box + nameTextH measure box + 5 := rfl

/-- When `box.y1 - textHeight - 5` is not negative the fallback does not
fire (line 116). -/
theorem nameLabelY_of_keep (measure : String → TextSize) (box : Box)
    (h : ¬ box.y1 - nameTextH measure box - 5 < 0) :
    nameLabelY measure box = box.y1 - nameTextH measure box - 5 := by
  unfold nameLabelY
  exact if_neg h

/-- When `box.y1 - textHeight - 5` is negative the label relocates to
`box.y1 + 5` (line 117). -/
theorem nameLabelY_of_reloc (measure : String → TextSize) (box : Box)
    (h : box.y1 - nameTextH measure box - 5 < 0) :
    nameLabelY measure box = box.y1 + 5 := by
  unfold nameLabelY
  exact if_pos h

/-! ## C4: name label boundary fallback -/

/-- C4: for every box with `box.y1 ≥ textHeight + padding` (padding = 5),
the name label's plate top equals `box.y1 - textHeight - padding` and is
never negative; for every box with `box.y1 < textHeight + padding`, the
name label relocates inside the box at `y = box.y1 + padding`, left-aligned
with `box.x1`. -/
theorem nameLabel_boundary_fallback (measure : String → TextSize)
    (box : Box) :
    (nameTextH measure box + 5 ≤ box.y1 →
      (namePlacement measure box).plate.y0
          = box.y1 - nameTextH measure box - 5 ∧
        0 ≤ (namePlacement measure box).plate.y0) ∧
    (box.y1 < nameTextH measure box + 5 →
      (namePlacement measure box).plate.y0 = box.y1 + 5 ∧
        (namePlacement measure box).plate.x0 = box.x1) := by
  constructor
  · intro h
    have hnn : ¬ box.y1 - nameTextH measure box - 5 < 0 := by linarith
    rw [namePlate_y0, nameLabelY_of_keep measure box hnn]
    exact ⟨rfl, by linarith⟩
  · intro h
    have hlt : box.y1 - nameTextH measure box - 5 < 0 := by linarith
    rw [namePlate_y0, nameLabelY_of_reloc measure box hlt]
    exact ⟨rfl, namePlate_x0 measure box⟩

/-- Witness for C4: both branches at concrete boxes — `cBoxHigh`
(`y1 = 40 ≥ 10 + 5`) keeps the label above the box at a non-negative `y`,
`cBoxLow` (`y1 = 0 < 10 + 5`) relocates it inside. -/
theorem nameLabel_boundary_fallback_witness :
    ((namePlacement cMeasure cBoxHigh).plate.y0
        = cBoxHigh.y1 - nameTextH cMeasure cBoxHigh - 5 ∧
      0 ≤ (namePlacement cMeasure cBoxHigh).plate.y0) ∧
    ((namePlacement cMeasure cBoxLow).plate.y0 = cBoxLow.y1 + 5 ∧
      (namePlacement cMeasure cBoxLow).plate.x0 = cBoxLow.x1) :=
  ⟨(nameLabel_boundary_fallback cMeasure cBoxHigh).1
      (by norm_num [nameTextH, cMeasure, cBoxHigh]),
   (nameLabel_boundary_fallback cMeasure cBoxLow).2
      (by norm_num [nameTextH, cMeasure, cBoxLow])⟩

/-! ## C3: date label vertical rule -/

/-- Top edge of a placed label's plate. -/
def placedY0 (p : Placed) : ℚ := p.plate.y0

/-- When the boundary fallback did not fire the date offset is `0`
(lines 125-127); needs the measured height to be non-negative (as
`draw.textbbox` heights are) so that `box.y1 - h - 5` cannot accidentally
equal `box.y1 + 5`. -/
theorem dateTextYOffset_of_keep (measure : String → TextSize) (box : Box)
    (hh : 0 ≤ nameTextH measure box)
    (h : ¬ box.y1 - nameTextH measure box - 5 < 0) :
    dateTextYOffset measure box = 0 := by
  unfold dateTextYOffset
  rw [nameLabelY_of_keep measure box h]
  have hne : box.y1 - nameTextH measure box - 5 ≠ box.y1 + 5 := by
    intro heq
    linarith
  exact if_neg hne

/-- When the boundary fallback fired the date offset is
`name_text_height + 5` (line 127). -/
theorem dateTextYOffset_of_reloc (measure : String → TextSize) (box : Box)
    (h : box.y1 - nameTextH measure box - 5 < 0) :
    dateTextYOffset measure box = nameTextH measure box + 5 := by
  unfold dateTextYOffset
  rw [nameLabelY_of_reloc measure box h]
  exact if_pos rfl

/-- With a non-empty date string the date label exists and its plate top is
`date_y` (lines 129-139). -/
theorem datePlate_y0 (measure : String → TextSize) (box : Box)
    (hd : box.date ≠ "") :
    (datePlacement measure box).map placedY0
      = some (dateLabelY measure box) := by
  unfold datePlacement
  rw [if_neg hd]
  rfl

/-- C3: for every box with a non-empty date string, the date label's `y`
equals the name label's `y` when the name label was not relocated inside
the box, and equals `nameLabel.y + nameLabel.height + padding` (strictly
below the name label, with no vertical overlap against the name plate)
when it was; `nameLabel.height` is the measured text height, as in the
spec's own worked example. -/
theorem dateLabel_y_rule (measure : String → TextSize) (box : Box)
    (hh : 0 ≤ nameTextH measure box) (hd : box.date ≠ "") :
    (¬ nameRelocated measure box →
      (datePlacement measure box).map placedY0
        = some (nameLabelY measure box)) ∧
    (nameRelocated measure box →
      (datePlacement measure box).map placedY0
          = some (nameLabelY measure box + nameTextH measure box + 5) ∧
        nameLabelY measure box
            < nameLabelY measure box + nameTextH measure box + 5 ∧
        (namePlacement measure box).plate.y1
            ≤ nameLabelY measure box + nameTextH measure box + 5) := by
  constructor
  · intro hrel
    rw [datePlate_y0 measure box hd]
    unfold dateLabelY
    rw [dateTextYOffset_of_keep measure box hh hrel, add_zero]
  · intro hrel
    have h5 : box.y1 - nameTextH measure box - 5 < 0 := hrel
    refine ⟨?_, by linarith, le_of_eq (namePlate_y1 measure box)⟩
    rw [datePlate_y0 measure box hd]
    unfold dateLabelY
    rw [dateTextYOffset_of_reloc measure box h5, add_assoc]

/-- Witness for C3: at `cBoxHigh` the date label shares the name label's
`y = 25`; at `cBoxLow` the name label is relocated and the date label sits
at `5 + 10 + 5 = 20`. -/
theorem dateLabel_y_rule_witness :
    (datePlacement cMeasure cBoxHigh).map placedY0
        = some (nameLabelY cMeasure cBoxHigh) ∧
    (datePlacement cMeasure cBoxLow).map placedY0
        = some (nameLabelY cMeasure cBoxLow + nameTextH cMeasure cBoxLow
            + 5) :=
  ⟨(dateLabel_y_rule cMeasure cBoxHigh
      (by norm_num [nameTextH, cMeasure, cBoxHigh]) (by decide)).1
      (by norm_num [nameRelocated, nameTextH, cMeasure, cBoxHigh]),
   ((dateLabel_y_rule cMeasure cBoxLow
      (by norm_num [nameTextH, cMeasure, cBoxLow]) (by decide)).2
      (by norm_num [nameRelocated, nameTextH, cMeasure, cBoxLow])).1⟩

/-! ## C1: coordinates label and the relocated name label -/

/-- C1 counterexample: at `cBoxLow` the name label is relocated inside the
box and both coordinates are supplied; the coordinates label's top
`box.y1 + 5` falls within the name label's vertical extent, yet its `y`
stays `box.y1 + 5` and is not the claimed
`nameLabel.y + nameLabel.height + padding`. -/
theorem coords_pushdown_counterexample :
    nameRelocated cMeasure cBoxLow ∧
    (coordsPlacement cMeasure (some 1) (some 2) cBoxLow).map placedY0
        = some (cBoxLow.y1 + 5) ∧
    (namePlacement cMeasure cBoxLow).plate.y0 ≤ cBoxLow.y1 + 5 ∧
    cBoxLow.y1 + 5 < (namePlacement cMeasure cBoxLow).plate.y1 ∧
    cBoxLow.y1 + 5
        ≠ nameLabelY cMeasure cBoxLow + nameTextH cMeasure cBoxLow + 5 := by
  have hrel : cBoxLow.y1 - nameTextH cMeasure cBoxLow - 5 < 0 := by
    norm_num [nameTextH, cMeasure, cBoxLow]
  refine ⟨hrel, rfl, ?_, ?_, ?_⟩
  · rw [namePlate_y0, nameLabelY_of_reloc cMeasure cBoxLow hrel]
  · rw [namePlate_y1, nameLabelY_of_reloc cMeasure cBoxLow hrel]
    norm_num [nameTextH, cMeasure, cBoxLow]
  · rw [nameLabelY_of_reloc cMeasure cBoxLow hrel]
    norm_num [nameTextH, cMeasure, cBoxLow]

/-- C1 amended: whenever both latitude and longitude are supplied, the
coordinates label's `y` is `box.y1 + padding` unconditionally — the code
never pushes it below a relocated name label (lines 150-151). -/
theorem coords_y_unconditional (measure : String → TextSize) (la lo : ℚ)
    (box : Box) :
    (coordsPlacement measure (some la) (some lo) box).map placedY0
      = some (box.y1 + 5) := rfl

/-! ## C2: intra-box label overlap -/

/-- C2 counterexample: at `cBoxLow` with both coordinates supplied, the
name label (relocated inside the box) and the coordinates label are two
labels of the same box whose plates overlap after all fallbacks. -/
theorem sameBox_labels_overlap_counterexample :
    (coordsPlacement cMeasure (some 1) (some 2) cBoxLow).elim False
      (fun p => (namePlacement cMeasure cBoxLow).plate.overlaps p.plate)
      := by
  have hrel : cBoxLow.y1 - nameTextH cMeasure cBoxLow - 5 < 0 := by
    norm_num [nameTextH, cMeasure, cBoxLow]
  show (namePlacement cMeasure cBoxLow).plate.overlaps
    ⟨cBoxLow.x2 - 50 - 5, cBoxLow.y1 + 5,
      cBoxLow.x2 - 50 - 5 + 50 + 5, cBoxLow.y1 + 5 + 10 + 5⟩
  refine ⟨?_, ?_, ?_, ?_⟩
  · rw [namePlate_x0]
    norm_num [cBoxLow]
  · rw [namePlate_x1]
    norm_num [nameTextW, cMeasure, cBoxLow]
  · rw [namePlate_y0, nameLabelY_of_reloc cMeasure cBoxLow hrel]
    norm_num [cBoxLow]
  · rw [namePlate_y1, nameLabelY_of_reloc cMeasure cBoxLow hrel]
    norm_num [nameTextH, cMeasure, cBoxLow]

/-- C2 amended: plates of the same box may overlap after fallback (the
coordinates plate can overlap the relocated name plate, and narrow boxes
can make the name and date plates collide); the only intra-box separation
the fallbacks guarantee is that a date label never overlaps a name label
that was relocated inside the box — it is placed flush below it. -/
theorem dateLabel_never_overlaps_relocated_name (measure : String → TextSize)
    (box : Box) (hrel : nameRelocated measure box) (hd : box.date ≠ "") :
    (datePlacement measure box).elim True
      (fun p => ¬ (namePlacement measure box).plate.overlaps p.plate) := by
  unfold datePlacement
  rw [if_neg hd]
  show ¬ (namePlacement measure box).plate.overlaps
    ⟨box.x2 - (measure (dateText box)).width - 5, dateLabelY measure box,
      box.x2 - (measure (dateText box)).width - 5
        + (measure (dateText box)).width + 5,
      dateLabelY measure box + (measure (dateText box)).height + 5⟩
  intro hov
  have hb : dateLabelY measure box < (namePlacement measure box).plate.y1 :=
    hov.2.2.2
  rw [namePlate_y1] at hb
  have hdy : dateLabelY measure box
      = nameLabelY measure box + (nameTextH measure box + 5) := by
    unfold dateLabelY
    rw [dateTextYOffset_of_reloc measure box hrel]
  rw [hdy, ← add_assoc] at hb
  exact lt_irrefl _ hb

/-- Witness for the amended C2 at `cBoxLow`: its date plate sits flush
below the relocated name plate and does not overlap it. -/
theorem dateLabel_never_overlaps_relocated_name_witness :
    (datePlacement cMeasure cBoxLow).elim True
      (fun p => ¬ (namePlacement cMeasure cBoxLow).plate.overlaps p.plate)
      :=
  dateLabel_never_overlaps_relocated_name cMeasure cBoxLow
    (by norm_num [nameRelocated, nameTextH, cMeasure, cBoxLow]) (by decide)

/-! ## C5: plate geometry -/

/-- The geometry every rendered label actually has in the source: the
plate extends the measured text size by 5 px (the background padding of
lines 120, 139, 154), and the text sits at a 2 px inset from the plate's
top-left corner (lines 121, 140, 155). -/
def labelGeometryOk (measure : String → TextSize) (p : Placed) : Prop :=
  p.plate.width = (measure p.text).width + 5 ∧
  p.plate.height = (measure p.text).height + 5 ∧
  p.textX = p.plate.x0 + 2 ∧
  p.textY = p.plate.y0 + 2

/-- Any label placed with the source's plate arithmetic satisfies
`labelGeometryOk`. -/
theorem placed_geometry (measure : String → TextSize) (x y : ℚ)
    (t : String) :
    labelGeometryOk measure
      { plate := ⟨x, y, x + (measure t).width + 5, y + (measure t).height + 5⟩
        textX := x + 2
        textY := y + 2
        text := t } := by
  unfold labelGeometryOk Plate.width Plate.height
  refine ⟨by ring, by ring, rfl, rfl⟩

/-- C5 counterexample: the name label's plate at `cBoxLow` is 5 px wider
than its text, not `2 * inset = 4` px wider as claimed. -/
theorem plate_inset_counterexample :
    (namePlacement cMeasure cBoxLow).plate.width
        = nameTextW cMeasure cBoxLow + 5 ∧
    (namePlacement cMeasure cBoxLow).plate.width
        ≠ nameTextW cMeasure cBoxLow + 2 * 2 := by
  have h : (namePlacement cMeasure cBoxLow).plate.width
      = nameTextW cMeasure cBoxLow + 5 := by
    unfold Plate.width
    rw [namePlate_x1, namePlate_x0]
    ring
  refine ⟨h, ?_⟩
  rw [h]
  norm_num [nameTextW, cMeasure]

/-- C5 amended: each label's background plate spans
`[x, y, x + textWidth + 5, y + textHeight + 5]` — width `textWidth + 5`
and height `textHeight + 5`, the 5 px padding added once towards the
bottom-right — and its text is drawn at a 2 px inset from the plate's
top-left corner. -/
theorem plate_geometry_rule (measure : String → TextSize)
    (lat lon : Option ℚ) (box : Box) :
    labelGeometryOk measure (namePlacement measure box) ∧
    (datePlacement measure box).elim True (labelGeometryOk measure) ∧
    (coordsPlacement measure lat lon box).elim True
      (labelGeometryOk measure) := by
  refine ⟨?_, ?_, ?_⟩
  · exact placed_geometry measure box.x1 (nameLabelY measure box) box.name
  · unfold datePlacement
    by_cases hd : box.date = ""
    · rw [if_pos hd]
      exact trivial
    · rw [if_neg hd]
      exact placed_geometry measure _ _ _
  · unfold coordsPlacement
    cases lat with
    | none => exact trivial
    | some la =>
      cases lon with
      | none => exact trivial
      | some lo => exact placed_geometry measure _ _ _

/-! ## Shared lemmas about the request handler -/

/-- When the data-URI decode fails the handler aborts with the decode
error before drawing or persisting anything (the exception escaping
lines 85-88). -/
theorem annotate_of_decode_none {Image : Type} (codec : Codec Image)
    (measure : String → TextSize) (imageIdGen : String) (now : ℕ)
    (ann : Annotation) (h : decodeImage codec ann.image = none) :
    annotate codec measure imageIdGen now ann = .error .decodeError := by
  unfold annotate
  rw [h]

/-- When the data-URI decode succeeds the handler returns the rendered
raster, the response wrapping its PNG encoding, and one record per box. -/
theorem annotate_of_decode_some {Image : Type} (codec : Codec Image)
    (measure : String → TextSize) (imageIdGen : String) (now : ℕ)
    (ann : Annotation) (img : Image)
    (h : decodeImage codec ann.image = some img) :
    annotate codec measure imageIdGen now ann
      = .ok ({ annotated_image := "data:image/png;base64,"
                  ++ codec.encodePNG
                    ((renderOps measure ann.latitude ann.longitude
                        ann.boxes).foldl codec.applyOp img)
               message := "Annotation saved to DB and image processed." },
             ann.boxes.map
               (entryForBox imageIdGen now ann.latitude ann.longitude),
             (renderOps measure ann.latitude ann.longitude ann.boxes).foldl
               codec.applyOp img) := by
  unfold annotate
  rw [h]

/-! ## C6: decode failure aborts the request -/

/-- C6: if decoding the input image fails (missing data-URI comma or a
payload the codec rejects), the operation fails with the decode error,
returns no partial raster, and persists no annotation records. -/
theorem decode_failure_aborts {Image : Type} (codec : Codec Image)
    (measure : String → TextSize) (imageIdGen : String) (now : ℕ)
    (ann : Annotation) (h : decodeImage codec ann.image = none) :
    annotate codec measure imageIdGen now ann = .error .decodeError ∧
    persistedRecords (annotate codec measure imageIdGen now ann) = [] := by
  have he := annotate_of_decode_none codec measure imageIdGen now ann h
  refine ⟨he, ?_⟩
  rw [he]
  rfl

/-- Witness for C6: `cAnnBad`'s image string has no comma, so the request
fails with the decode error and the store stays empty. -/
theorem decode_failure_aborts_witness :
    annotate cCodec cMeasure "img_1" 0 cAnnBad = .error .decodeError ∧
    persistedRecords (annotate cCodec cMeasure "img_1" 0 cAnnBad) = [] :=
  decode_failure_aborts cCodec cMeasure "img_1" 0 cAnnBad rfl

/-! ## C7: persisted records -/

/-- C7 counterexample: two boxes that differ only in their geometry
produce identical persisted records — the record does not carry the box
geometry the claim lists. -/
theorem record_no_geometry_counterexample :
    entryForBox "img_1" 0 (some 1) (some 2) ⟨0, 0, 60, 100, "a", "d"⟩
        = entryForBox "img_1" 0 (some 1) (some 2) ⟨7, 8, 9, 10, "a", "d"⟩ ∧
    (⟨0, 0, 60, 100, "a", "d"⟩ : Box) ≠ (⟨7, 8, 9, 10, "a", "d"⟩ : Box) := by
  refine ⟨rfl, ?_⟩
  intro h
  have hx : (0 : ℚ) = 7 := congrArg Box.x1 h
  norm_num at hx

/-- C7 amended: every successful request persists exactly one record per
bounding box, each carrying the image reference, the box's name and date,
the request's latitude/longitude and a creation timestamp — but not the
box geometry. -/
theorem records_one_per_box {Image : Type} (codec : Codec Image)
    (measure : String → TextSize) (imageIdGen : String) (now : ℕ)
    (ann : Annotation) (resp : Response) (entries : List AnnotationEntry)
    (img : Image)
    (h : annotate codec measure imageIdGen now ann
      = .ok (resp, entries, img)) :
    entries = ann.boxes.map
        (entryForBox imageIdGen now ann.latitude ann.longitude) ∧
    entries.length = ann.boxes.length := by
  cases hd : decodeImage codec ann.image with
  | none =>
    rw [annotate_of_decode_none codec measure imageIdGen now ann hd] at h
    exact Except.noConfusion h
  | some i =>
    rw [annotate_of_decode_some codec measure imageIdGen now ann i hd] at h
    simp only [Except.ok.injEq, Prod.mk.injEq] at h
    obtain ⟨-, he, -⟩ := h
    rw [← he]
    exact ⟨rfl, List.length_map _ _⟩

/-- Witness for C7: the two-box request `cAnn` persists exactly two
records, one per box. -/
theorem records_one_per_box_witness :
    (cAnn.boxes.map (entryForBox "img_1" 0 (some 1) (some 2))).length
      = cAnn.boxes.length :=
  (records_one_per_box cCodec cMeasure "img_1" 0 cAnn _
      (cAnn.boxes.map (entryForBox "img_1" 0 (some 1) (some 2))) _ rfl).2

/-! ## C8: zero boxes -/

/-- C8: a request with no boxes performs no drawing — the draw-operation
list is empty — and returns the decoded input raster re-encoded as a PNG
data-URI with its content unmodified, persisting nothing. -/
theorem zero_boxes_no_drawing {Image : Type} (codec : Codec Image)
    (measure : String → TextSize) (imageIdGen : String) (now : ℕ)
    (ann : Annotation) (img : Image) (hb : ann.boxes = [])
    (hd : decodeImage codec ann.image = some img) :
    renderOps measure ann.latitude ann.longitude ann.boxes = [] ∧
    annotate codec measure imageIdGen now ann
      = .ok ({ annotated_image := "data:image/png;base64,"
                  ++ codec.encodePNG img
               message := "Annotation saved to DB and image processed." },
             [], img) := by
  have hro : renderOps measure ann.latitude ann.longitude ann.boxes = [] := by
    rw [hb]
    rfl
  refine ⟨hro, ?_⟩
  rw [annotate_of_decode_some codec measure imageIdGen now ann img hd, hro,
    hb]
  rfl

/-- Witness for C8: the box-free request `cAnnEmpty` emits no draw
operations and returns its decoded raster unchanged. -/
theorem zero_boxes_no_drawing_witness :
    renderOps cMeasure cAnnEmpty.latitude cAnnEmpty.longitude
        cAnnEmpty.boxes = [] ∧
    annotate cCodec cMeasure "img_1" 0 cAnnEmpty
      = .ok ({ annotated_image := "data:image/png;base64,"
                  ++ cCodec.encodePNG 4
               message := "Annotation saved to DB and image processed." },
             [], 4) :=
  zero_boxes_no_drawing cCodec cMeasure "img_1" 0 cAnnEmpty 4 rfl rfl

/-! ## C9: PNG data-URI response -/

/-- C9: every successful request's `annotated_image` is the string
`"data:image/png;base64,"` followed by the PNG encoding of the rendered
raster, whatever format the input image had. -/
theorem response_is_png_datauri {Image : Type} (codec : Codec Image)
    (measure : String → TextSize) (imageIdGen : String) (now : ℕ)
    (ann : Annotation) (resp : Response) (entries : List AnnotationEntry)
    (img : Image)
    (h : annotate codec measure imageIdGen now ann
      = .ok (resp, entries, img)) :
    resp.annotated_image = "data:image/png;base64," ++ codec.encodePNG img
    := by
  cases hd : decodeImage codec ann.image with
  | none =>
    rw [annotate_of_decode_none codec measure imageIdGen now ann hd] at h
    exact Except.noConfusion h
  | some i =>
    rw [annotate_of_decode_some codec measure imageIdGen now ann i hd] at h
    simp only [Except.ok.injEq, Prod.mk.injEq] at h
    obtain ⟨hr, -, hi⟩ := h
    rw [← hr, ← hi]

/-- Witness for C9 at the box-free request `cAnnEmpty`. -/
theorem response_is_png_datauri_witness :
    ({ annotated_image := "data:image/png;base64," ++ cCodec.encodePNG 4
       message := "Annotation saved to DB and image processed." }
        : Response).annotated_image
      = "data:image/png;base64," ++ cCodec.encodePNG 4 :=
  response_is_png_datauri cCodec cMeasure "img_1" 0 cAnnEmpty _ [] 4 rfl

/-! ## C10: one image reference per request -/

/-- C10: all records persisted by one request carry the single
`image_id_gen` value generated before the box loop — records of the same
request never get distinct image references. -/
theorem records_share_image_id {Image : Type} (codec : Codec Image)
    (measure : String → TextSize) (imageIdGen : String) (now : ℕ)
    (ann : Annotation) (resp : Response) (entries : List AnnotationEntry)
    (img : Image)
    (h : annotate codec measure imageIdGen now ann
      = .ok (resp, entries, img)) :
    ∀ e ∈ entries, e.image_id = imageIdGen := by
  cases hd : decodeImage codec ann.image with
  | none =>
    rw [annotate_of_decode_none codec measure imageIdGen now ann hd] at h
    exact Except.noConfusion h
  | some i =>
    rw [annotate_of_decode_some codec measure imageIdGen now ann i hd] at h
    simp only [Except.ok.injEq, Prod.mk.injEq] at h
    obtain ⟨-, he, -⟩ := h
    intro e hee
    rw [← he] at hee
    obtain ⟨b, -, rfl⟩ := List.mem_map.1 hee
    rfl

/-- Witness for C10: the first record of the two-box request `cAnn`
carries the request's single image reference. -/
theorem records_share_image_id_witness :
    (entryForBox "img_1" 0 (some 1) (some 2) cBoxLow).image_id = "img_1"
    := by
  have h := records_share_image_id cCodec cMeasure "img_1" 0 cAnn _
    (cAnn.boxes.map (entryForBox "img_1" 0 (some 1) (some 2))) _ rfl
  exact h _ (List.mem_map_of_mem _ (by
    show cBoxLow ∈ [cBoxLow, cBoxHigh]
    exact List.mem_cons_self _ _))

end FaunaDetector
